import Mathlib

/-!
Verification of the résumé-structuring and document-export pipeline of
`src/app.py` (AI-Resume-Builder).

The Python code is shallowly embedded: Python strings become `String`,
Python `dict`s of form fields become association lists, and the handful of
Python string primitives the code uses (`str.split`, `str.strip`,
`str.join`, slicing `s[:n]`, `len`) are modelled by structurally recursive
functions over `List Char` so that every definition evaluates by kernel
reduction.  External effects (the OpenAI HTTP call, `json.loads`,
WeasyPrint, the filesystem) are oracles passed in as parameters; everything
the repository's own code computes is translated directly from the source.
-/

/-! ## Python string primitives -/

/-- Python `len(s)`: the number of code points of `s`. -/
def pyLen (s : String) : Nat := s.data.length

/-- Python slicing `s[:n]`: the first `n` code points of `s`. -/
def pySlice (s : String) (n : Nat) : String := String.mk (s.data.take n)

/-- `startsWith sep l` is true when `sep` is a prefix of `l`. -/
def startsWith : List Char → List Char → Bool
  | [], _ => true
  | _ :: _, [] => false
  | a :: as, b :: bs => a = b && startsWith as bs

/-- Worker for `pySplit`.  `fuel ≥ l.length` suffices for a non-empty
separator, since every step consumes at least one character of `l`. -/
def pySplitAux (sep : List Char) : List Char → List Char → Nat → List (List Char)
  | l, acc, 0 => [acc.reverse ++ l]
  | l, acc, fuel + 1 =>
    match l with
    | [] => [acc.reverse]
    | c :: rest =>
      if startsWith sep (c :: rest) then
        acc.reverse :: pySplitAux sep ((c :: rest).drop sep.length) [] fuel
      else
        pySplitAux sep rest (c :: acc) fuel

/-- Python `s.split(sep)` for a non-empty separator `sep`: splits at every
occurrence, keeps empty pieces, and `"".split(sep) = [""]`. -/
def pySplit (s sep : String) : List String :=
  (pySplitAux sep.data s.data [] s.data.length).map String.mk

/-- Python `s.strip()` on a list of characters. -/
def pyStripList (l : List Char) : List Char :=
  ((l.dropWhile Char.isWhitespace).reverse.dropWhile Char.isWhitespace).reverse

/-- Python `s.strip()`: drop leading and trailing whitespace. -/
def pyStrip (s : String) : String := String.mk (pyStripList s.data)

/-- Python `sep.join(l)`. -/
def pyJoin (sep : String) : List String → String
  | [] => ""
  | [s] => s
  | s :: rest => s ++ sep ++ pyJoin sep rest

/-! ## Data model (spec §3) -/

/-- `FormData`: the flat mapping of string form-field keys to string values
collected by the index handler (a Python `dict`). -/
structure FormData where
  fields : List (String × String)
deriving DecidableEq

/-- Python `d.get(key, dflt)`. -/
def lookupD : List (String × String) → String → String → String
  | [], _, dflt => dflt
  | (k, v) :: rest, key, dflt => if k = key then v else lookupD rest key dflt

/-- Python `form.get(key, dflt)`. -/
def FormData.getD (d : FormData) (key dflt : String) : String :=
  lookupD d.fields key dflt

/-- Python `form.get(key, '')`, the form the structurer uses throughout. -/
def FormData.get (d : FormData) (key : String) : String := d.getD key ""

/-- One experience entry of the normalized résumé structure. -/
structure ExperienceEntry where
  company : String
  role : String
  dates : String
  bullets : List String
deriving DecidableEq

/-- The normalized résumé structure produced by either structurer. -/
structure ResumeStructure where
  summary : String
  experiences : List ExperienceEntry
  skills_line : String
deriving DecidableEq

/-! ## Local Structurer: `fallback_structure` (src/app.py lines 81–103) -/

/-- Python `parts[i] if len(parts) > i else ""`. -/
def getPart (parts : List String) (i : Nat) : String :=
  if h : i < parts.length then parts.get ⟨i, h⟩ else ""

/-- `[p.strip() for p in block.split("—")]` (line 90). -/
def partsOf (block : String) : List String :=
  (pySplit block "—").map pyStrip

/-- The `company` part of a block (line 91). -/
def companyOf (block : String) : String := getPart (partsOf block) 0

/-- The `role` part of a block (line 92). -/
def roleOf (block : String) : String := getPart (partsOf block) 1

/-- The `dates` part of a block (line 93). -/
def datesOf (block : String) : String := getPart (partsOf block) 2

/-- The `desc` part of a block (line 94). -/
def descOf (block : String) : String := getPart (partsOf block) 3

/-- Lines 95–99: the one bullet the `if desc:` / `else` appends. -/
def firstBulletOf (block : String) : String :=
  if descOf block ≠ "" then
    (if pyLen (descOf block) ≤ 120 then descOf block
     else pySlice (descOf block) 117 ++ "...")
  else
    "Served as " ++ roleOf block ++ " at " ++ companyOf block

/-- Lines 90–101: turn one non-empty stripped block into an entry.  The
bullet list is the single bullet of lines 95–99 followed by the two filler
bullets `bullets += [...]` of line 100 appends. -/
def structureBlock (block : String) : ExperienceEntry :=
  { company := companyOf block
    role := roleOf block
    dates := datesOf block
    bullets := [firstBulletOf block, "Delivered key results", "Collaborated across teams"] }

/-- The `for block in raw.split("||")` loop (lines 86–101): strip each
block, skip the empty ones, append an entry for the rest in order. -/
def buildExList : List String → List ExperienceEntry
  | [] => []
  | b :: rest =>
    if pyStrip b = "" then buildExList rest
    else structureBlock (pyStrip b) :: buildExList rest

/-- `[s.strip() for s in skills.split(',')]`. -/
def trimmedSkills (skills : String) : List String :=
  (pySplit skills ",").map pyStrip

/-- `fallback_structure` (lines 81–103): the Local Structurer. -/
def fallback_structure (data : FormData) : ResumeStructure :=
  { summary :=
      data.get "title" ++ " with experience in "
        ++ pyJoin ", " ((trimmedSkills (data.get "skills")).take 3) ++ "."
    experiences := buildExList (pySplit (data.get "experience_raw") "||")
    skills_line :=
      pyJoin ", " ((trimmedSkills (data.get "skills")).filter (fun s => s ≠ "")) }

/-! ### Exception-aware rerun of the Local Structurer

Python list indexing `parts[i]` raises `IndexError` when out of range; the
code only indexes under a `len(parts) > i` guard.  To settle that no error
branch of `fallback_structure` is reachable we rerun it in `Except`,
surfacing every indexing operation as a possible failure. -/

/-- `l[i]`, raising like Python on an out-of-range index. -/
def listIndexE (l : List String) (i : Nat) : Except String String :=
  if h : i < l.length then Except.ok (l.get ⟨i, h⟩) else Except.error "IndexError"

/-- `parts[i] if len(parts) > i else ""` with the indexing fallible. -/
def partE (parts : List String) (i : Nat) : Except String String :=
  if i < parts.length then listIndexE parts i else Except.ok ""

/-- Lines 90–101 with fallible indexing. -/
def structureBlockE (block : String) : Except String ExperienceEntry := do
  let parts := partsOf block
  let company ← partE parts 0
  let role ← partE parts 1
  let dates ← partE parts 2
  let desc ← partE parts 3
  let firstBullet :=
    if desc ≠ "" then
      (if pyLen desc ≤ 120 then desc else pySlice desc 117 ++ "...")
    else
      "Served as " ++ role ++ " at " ++ company
  pure { company := company, role := role, dates := dates
         bullets := [firstBullet, "Delivered key results", "Collaborated across teams"] }

/-- The block loop with fallible indexing. -/
def buildExListE : List String → Except String (List ExperienceEntry)
  | [] => Except.ok []
  | b :: rest =>
    if pyStrip b = "" then buildExListE rest
    else do
      let e ← structureBlockE (pyStrip b)
      let es ← buildExListE rest
      pure (e :: es)

/-- `fallback_structure` with every fallible operation surfaced. -/
def fallback_structureE (data : FormData) : Except String ResumeStructure := do
  let ex_list ← buildExListE (pySplit (data.get "experience_raw") "||")
  pure { summary :=
           data.get "title" ++ " with experience in "
             ++ pyJoin ", " ((trimmedSkills (data.get "skills")).take 3) ++ "."
         experiences := ex_list
         skills_line :=
           pyJoin ", " ((trimmedSkills (data.get "skills")).filter (fun s => s ≠ "")) }

/-! ## PDF export: `reportlab_pdf_bytes` and `download_pdf`
(src/app.py lines 136–152 and 202–222)

The ReportLab canvas is modelled as the list of drawing commands issued to
it — an abstraction of the PDF content stream the library serializes.  The
WeasyPrint primary renderer is external; its outcome is an oracle:
`some bytes` when the library is available and `write_pdf` succeeded,
`none` when it is unavailable or raised. -/

/-- One ReportLab canvas command. -/
inductive DrawOp where
  | setFont (font : String) (size : Nat)
  | drawString (x y : Nat) (text : String)
  | showPage
  | save
deriving DecidableEq

/-- The `for line in lines` loop (lines 144–149): draw each line truncated
to 95 characters, move the cursor down 14pt, and start a new page at
`y = 750` once the cursor drops below 80pt. -/
def drawLines : Nat → List String → List DrawOp
  | _, [] => []
  | y, line :: rest =>
    if y - 14 < 80 then
      DrawOp.drawString 50 y (pySlice line 95) :: DrawOp.showPage :: drawLines 750 rest
    else
      DrawOp.drawString 50 y (pySlice line 95) :: drawLines (y - 14) rest

/-- `reportlab_pdf_bytes` (lines 136–152): title in bold 18pt at
`(50, 750)`, then the body lines in 11pt from `y = 726` (the dict argument
`{"title_line": …, "lines": […]}` is passed as two parameters). -/
def reportlab_pdf_bytes (title_line : String) (lines : List String) : List DrawOp :=
  DrawOp.setFont "Helvetica-Bold" 18 ::
  DrawOp.drawString 50 750 title_line ::
  DrawOp.setFont "Helvetica" 11 ::
  (drawLines 726 lines ++ [DrawOp.save])

/-- A `send_file` response of the PDF route: the body is either the primary
renderer's bytes or the ReportLab fallback's command stream. -/
structure PdfResponse where
  content : List Nat ⊕ List DrawOp
  download_name : String
  mimetype : String
deriving DecidableEq

/-- `download_pdf` (lines 202–222).  `weasyResult` is the primary-renderer
oracle: `some pdf` when WeasyPrint is available and `write_pdf` returned
`pdf`; `none` when the library is unavailable or raised (the `except`
branch logs and falls through to the ReportLab fallback). -/
def download_pdf (weasyResult : Option (List Nat)) (form_data : FormData)
    (ai_struct : ResumeStructure) : PdfResponse :=
  match weasyResult with
  | some pdf =>
    { content := Sum.inl pdf
      download_name := form_data.getD "name" "resume" ++ ".pdf"
      mimetype := "application/pdf" }
  | none =>
    { content := Sum.inr (reportlab_pdf_bytes (form_data.get "name")
        [ai_struct.summary, ai_struct.skills_line])
      download_name := form_data.getD "name" "resume" ++ ".pdf"
      mimetype := "application/pdf" }

/-! ## DOCX export: `generate_docx_bytes` and `download_docx`
(src/app.py lines 109–134 and 224–244)

A python-docx `Document` is modelled as the list of build commands issued
to it.  `imageAdded` collapses the external `os.path.exists` check and the
`add_picture` try/except of lines 115–119. -/

/-- One python-docx document-building command. -/
inductive DocxOp where
  | heading (text : String) (level : Nat)
  | paragraph (text : String)
  | bulletItem (text : String)
  | picture (path : String)
deriving DecidableEq

/-- Lines 125–128: one sub-heading plus bulleted list per experience. -/
def expDocxOps (ex : ExperienceEntry) : List DocxOp :=
  DocxOp.heading (ex.role ++ " — " ++ ex.company) 2 :: ex.bullets.map DocxOp.bulletItem

/-- `generate_docx_bytes` (lines 109–134): raises when python-docx is
missing, otherwise builds the document. -/
def generate_docx_bytes (docxAvailable : Bool) (form_data : FormData)
    (ai_struct : ResumeStructure) (imageAdded : Bool) (imagePath : String) :
    Except String (List DocxOp) :=
  if docxAvailable = false then Except.error "python-docx not installed"
  else Except.ok (
    [DocxOp.heading (form_data.get "name") 0,
     DocxOp.paragraph (form_data.get "title")]
    ++ (if imageAdded then [DocxOp.picture imagePath] else [])
    ++ [DocxOp.heading "Summary" 1,
        DocxOp.paragraph ai_struct.summary,
        DocxOp.heading "Skills" 1,
        DocxOp.paragraph ai_struct.skills_line,
        DocxOp.heading "Experience" 1]
    ++ ai_struct.experiences.flatMap expDocxOps
    ++ [DocxOp.heading "Education" 1,
        DocxOp.paragraph (form_data.get "education")])

/-- A `send_file` response of the DOCX route: the body is either the built
DOCX document or the plain-text fallback string. -/
structure DocxResponse where
  content : List DocxOp ⊕ String
  download_name : String
  mimetype : String
deriving DecidableEq

/-- The plain-text fallback body (lines 235–242):
`f"{name}\n{title}\n\n{summary}\n\nSkills: {skills_line}\n"`. -/
def docxFallbackText (form_data : FormData) (ai_struct : ResumeStructure) : String :=
  form_data.get "name" ++ "\n" ++ form_data.get "title" ++ "\n\n"
    ++ ai_struct.summary ++ "\n\nSkills: " ++ ai_struct.skills_line ++ "\n"

/-- `download_docx` (lines 224–244). -/
def download_docx (docxAvailable : Bool) (form_data : FormData)
    (ai_struct : ResumeStructure) (imageAdded : Bool) (imagePath : String) :
    Except String DocxResponse :=
  if docxAvailable then do
    let docx_buf ← generate_docx_bytes docxAvailable form_data ai_struct imageAdded imagePath
    pure { content := Sum.inl docx_buf
           download_name := form_data.getD "name" "resume" ++ ".docx"
           mimetype := "application/vnd.openxmlformats-officedocument.wordprocessingml.document" }
  else
    pure { content := Sum.inr (docxFallbackText form_data ai_struct)
           download_name := form_data.getD "name" "resume" ++ ".txt"
           mimetype := "text/plain" }

/-! ## AI Structurer: `call_openai_for_resume` (src/app.py lines 51–79)
and the structurer selection of `index` (lines 186–190)

The parsed value of `json.loads` is a JSON tree.  The OpenAI call is an
oracle `apiResult` (`Except.error` = any exception raised by the client:
network error, API error; `Except.ok text` = the returned message content)
and `json.loads` is an oracle `loads` (`none` = the text is not valid
JSON). -/

/-- A parsed JSON value. -/
inductive Json where
  | null
  | bool (b : Bool)
  | num (n : Int)
  | str (s : String)
  | arr (elems : List Json)
  | obj (fields : List (String × Json))

/-- Python truthiness of a parsed JSON value (`None`, `False`, `0`, `""`,
`[]` and `{}` are falsy). -/
def Json.falsy : Json → Bool
  | .null => true
  | .bool b => !b
  | .num n => n == 0
  | .str s => s == ""
  | .arr elems => elems.isEmpty
  | .obj fs => fs.isEmpty

/-- `call_openai_for_resume` (lines 51–79): `none` models Python `None`.
Python has no option wrapper: `json.loads("null")` yields `None`, so a
response that parses to JSON null makes `return parsed` (line 76) return
`None` — the very value the function's failure paths return.  The
embedding therefore collapses a parsed `Json.null` to `none`: the caller
cannot tell the two apart. -/
def call_openai_for_resume (loads : String → Option Json) (openaiAvailable : Bool)
    (api_key : String) (apiResult : Except String String) : Option Json :=
  if openaiAvailable = false ∨ api_key = "" then none
  else
    match apiResult with
    | Except.error _ => none
    | Except.ok text =>
      match loads text with
      | none => none
      | some Json.null => none
      | some parsed => some parsed

/-- The Python dict an `ExperienceEntry` denotes. -/
def expJson (e : ExperienceEntry) : Json :=
  Json.obj [("company", Json.str e.company), ("role", Json.str e.role),
            ("dates", Json.str e.dates),
            ("bullets", Json.arr (e.bullets.map Json.str))]

/-- The Python dict `fallback_structure` returns, as a JSON value. -/
def resumeJson (r : ResumeStructure) : Json :=
  Json.obj [("summary", Json.str r.summary),
            ("experiences", Json.arr (r.experiences.map expJson)),
            ("skills_line", Json.str r.skills_line)]

/-- Lines 189–190 of the `index` handler: `if not ai_struct: ai_struct =
fallback_structure(form)` — a falsy or absent AI result is replaced by the
Local Structurer's output. -/
def pickStruct (ai0 : Option Json) (form : FormData) : Json :=
  match ai0 with
  | none => resumeJson (fallback_structure form)
  | some j => if j.falsy then resumeJson (fallback_structure form) else j

/-- Lines 186–190 of the `index` handler: start with `ai_struct = None`,
call the AI structurer only when the submitted API key is non-empty and the
OpenAI import succeeded, and replace any falsy result (`if not ai_struct`)
with the Local Structurer's output. -/
def index_choose_struct (loads : String → Option Json) (openaiAvailable : Bool)
    (apikey : String) (apiResult : Except String String) (form : FormData) : Json :=
  pickStruct
    (if apikey ≠ "" ∧ openaiAvailable then
      call_openai_for_resume loads openaiAvailable apikey apiResult
     else none)
    form

/-! ## Helper lemmas -/

lemma data_append (a b : String) : (a ++ b).data = a.data ++ b.data := rfl

lemma pyLen_append (a b : String) : pyLen (a ++ b) = pyLen a + pyLen b := by
  simp [pyLen, data_append]

lemma pyLen_pySlice (s : String) (n : Nat) : pyLen (pySlice s n) = min n (pyLen s) := by
  simp [pyLen, pySlice]

lemma buildExList_length (l : List String) :
    (buildExList l).length = ((l.map pyStrip).filter (fun b => b ≠ "")).length := by
  induction l with
  | nil => rfl
  | cons b rest ih =>
    by_cases h : pyStrip b = ""
    · simp [buildExList, h, ih]
    · simp [buildExList, h, ih]

/-! ## The Local Structurer's claims -/

/-- **C1.** For every `FormData`, the Local Structurer produces an
`experiences` sequence whose length equals the number of blocks of
`experience_raw` split on `"||"` that are non-empty after trimming. -/
theorem fallback_experiences_length (data : FormData) :
    (fallback_structure data).experiences.length
      = (((pySplit (data.get "experience_raw") "||").map pyStrip).filter
          (fun b => b ≠ "")).length := by
  simpa [fallback_structure] using
    buildExList_length (pySplit (data.get "experience_raw") "||")

/-- **C2.** For every block with a non-empty description part, the first
bullet is the description verbatim when its length is at most 120
characters and the first 117 characters followed by `"..."` otherwise; in
both cases the first bullet's length is `min (length desc) 120`, so a
120-character description is kept whole and a 121-character one becomes
exactly 120 characters. -/
theorem first_bullet_truncation (block : String) (h : descOf block ≠ "") :
    (structureBlock block).bullets.headI
        = (if pyLen (descOf block) ≤ 120 then descOf block
           else pySlice (descOf block) 117 ++ "...")
    ∧ pyLen ((structureBlock block).bullets.headI)
        = min (pyLen (descOf block)) 120 := by
  have hb : (structureBlock block).bullets.headI = firstBulletOf block := rfl
  constructor
  · rw [hb]
    simp [firstBulletOf, h]
  · by_cases h120 : pyLen (descOf block) ≤ 120
    · rw [hb]
      simp [firstBulletOf, h, h120]
    · have hdots : pyLen "..." = 3 := rfl
      have hfb : firstBulletOf block = pySlice (descOf block) 117 ++ "..." := by
        simp [firstBulletOf, h, h120]
      rw [hb, hfb, pyLen_append, pyLen_pySlice, hdots]
      omega

/-- Witness for C2 at a concrete block: the block
`"Acme—Engineer—2020-2022—Built systems"` has the non-empty description
`"Built systems"`. -/
theorem first_bullet_truncation_check :
    (structureBlock "Acme—Engineer—2020-2022—Built systems").bullets.headI
        = (if pyLen (descOf "Acme—Engineer—2020-2022—Built systems") ≤ 120
           then descOf "Acme—Engineer—2020-2022—Built systems"
           else pySlice (descOf "Acme—Engineer—2020-2022—Built systems") 117 ++ "...")
    ∧ pyLen ((structureBlock "Acme—Engineer—2020-2022—Built systems").bullets.headI)
        = min (pyLen (descOf "Acme—Engineer—2020-2022—Built systems")) 120 :=
  first_bullet_truncation "Acme—Engineer—2020-2022—Built systems" (by decide)

/-- **C3.** For every `FormData`, `skills_line` is the `", "`-join of the
trimmed tokens of the `skills` field split on `","` with the tokens that
are empty after trimming removed, in their original order; in particular
`"Python, , Go ,Rust"` yields `"Python, Go, Rust"`. -/
theorem skills_line_projection (data : FormData) :
    (fallback_structure data).skills_line
      = pyJoin ", " (((pySplit (data.get "skills") ",").map pyStrip).filter
          (fun s => s ≠ ""))
    ∧ (fallback_structure ⟨[("skills", "Python, , Go ,Rust")]⟩).skills_line
        = "Python, Go, Rust" :=
  ⟨rfl, by decide⟩

/-- **C6.** For every block whose description part is absent or empty after
trimming, the first bullet is `"Served as {role} at {company}"`; every
entry has exactly three bullets, the last two being the fixed fillers; and
the worked example from the spec holds. -/
theorem experience_bullets_shape (block : String) (h : descOf block = "") :
    (structureBlock block).bullets
        = ["Served as " ++ roleOf block ++ " at " ++ companyOf block,
           "Delivered key results", "Collaborated across teams"]
    ∧ (∀ b : String, (structureBlock b).bullets.length = 3
        ∧ (structureBlock b).bullets.tail
            = ["Delivered key results", "Collaborated across teams"])
    ∧ (fallback_structure ⟨[("experience_raw",
          "Acme—Engineer—2020-2022—Built systems||Globex—Lead—2022-2023")]⟩).experiences.map
          (fun e => e.bullets.headI)
        = ["Built systems", "Served as Lead at Globex"] := by
  refine ⟨?_, fun b => ⟨rfl, rfl⟩, by decide⟩
  simp [structureBlock, firstBulletOf, h]

/-- Witness for C6 at a concrete block: `"Globex—Lead—2022-2023"` has no
fourth `"—"`-separated part, so its description is empty. -/
theorem experience_bullets_shape_check :
    (structureBlock "Globex—Lead—2022-2023").bullets
        = ["Served as " ++ roleOf "Globex—Lead—2022-2023" ++ " at "
             ++ companyOf "Globex—Lead—2022-2023",
           "Delivered key results", "Collaborated across teams"]
    ∧ (∀ b : String, (structureBlock b).bullets.length = 3
        ∧ (structureBlock b).bullets.tail
            = ["Delivered key results", "Collaborated across teams"])
    ∧ (fallback_structure ⟨[("experience_raw",
          "Acme—Engineer—2020-2022—Built systems||Globex—Lead—2022-2023")]⟩).experiences.map
          (fun e => e.bullets.headI)
        = ["Built systems", "Served as Lead at Globex"] :=
  experience_bullets_shape "Globex—Lead—2022-2023" (by decide)

/-- **C7.** For every `FormData`, the summary is
`"{title} with experience in {X}."` where `X` joins the first three trimmed
tokens of the `skills` field with `", "`. -/
theorem summary_format (data : FormData) :
    (fallback_structure data).summary
      = data.get "title" ++ " with experience in "
        ++ pyJoin ", " (((pySplit (data.get "skills") ",").map pyStrip).take 3) ++ "."
    ∧ (fallback_structure ⟨[("title", "Engineer"),
          ("skills", "Python, Go, Rust, Java")]⟩).summary
        = "Engineer with experience in Python, Go, Rust." :=
  ⟨rfl, by decide⟩

/-! ## Totality of the Local Structurer (C8) -/

lemma except_bind_ok {α β ε : Type} (a : α) (f : α → Except ε β) :
    (Except.ok a : Except ε α) >>= f = f a := rfl

lemma partE_ok (parts : List String) (i : Nat) :
    partE parts i = Except.ok (getPart parts i) := by
  by_cases h : i < parts.length
  · simp [partE, listIndexE, getPart, h]
  · simp [partE, listIndexE, getPart, h]

lemma structureBlockE_ok (block : String) :
    structureBlockE block = Except.ok (structureBlock block) := by
  simp [structureBlockE, structureBlock, partE_ok, firstBulletOf, companyOf, roleOf,
    datesOf, descOf, except_bind_ok]

lemma buildExListE_ok (l : List String) :
    buildExListE l = Except.ok (buildExList l) := by
  induction l with
  | nil => rfl
  | cons b rest ih =>
    by_cases h : pyStrip b = ""
    · simp [buildExListE, buildExList, h, ih]
    · simp [buildExListE, buildExList, h, ih, structureBlockE_ok, except_bind_ok]

/-- **C8.** The Local Structurer is total: rerun with every fallible
operation surfaced in `Except`, it reaches no error branch on any
`FormData` (keys missing or empty included) and returns exactly the
`ResumeStructure` — with its three fields — that `fallback_structure`
computes. -/
theorem fallback_structure_total (data : FormData) :
    fallback_structureE data = Except.ok (fallback_structure data) := by
  simp [fallback_structureE, fallback_structure, buildExListE_ok]

/-! ## Document Exporter claims -/

/-- **C4.** PDF export is total: when the primary renderer is unavailable
or raises (oracle `none`), `download_pdf` returns the ReportLab fallback
stream for the name/summary/skills lines; and the fallback itself never
fails and never yields empty output — for every title line and line list it
begins with the bold 18pt title command. -/
theorem download_pdf_fallback_nonempty (form_data : FormData)
    (ai_struct : ResumeStructure) (title_line : String) (lines : List String) :
    download_pdf none form_data ai_struct
        = { content := Sum.inr (reportlab_pdf_bytes (form_data.get "name")
              [ai_struct.summary, ai_struct.skills_line])
            download_name := form_data.getD "name" "resume" ++ ".pdf"
            mimetype := "application/pdf" }
    ∧ reportlab_pdf_bytes title_line lines ≠ []
    ∧ (reportlab_pdf_bytes title_line lines).head?
        = some (DrawOp.setFont "Helvetica-Bold" 18) := by
  refine ⟨rfl, ?_, rfl⟩
  simp [reportlab_pdf_bytes]

lemma text_ne_docx_mime :
    ("text/plain" : String)
      ≠ "application/vnd.openxmlformats-officedocument.wordprocessingml.document" := by
  decide

/-- **C5.** DOCX export always returns a response whose content type is
consistent with what was produced: the DOCX mimetype exactly when the DOCX
capability is present (then the body is the built document and the filename
ends `.docx`); otherwise the plain-text fallback carrying name, title,
summary and skills line with mimetype `text/plain` and a `.txt` filename.
The DOCX mimetype is claimed exactly when the body is a DOCX document. -/
theorem download_docx_content_type (docxAvailable : Bool) (form_data : FormData)
    (ai_struct : ResumeStructure) (imageAdded : Bool) (imagePath : String) :
    ∃ r, download_docx docxAvailable form_data ai_struct imageAdded imagePath
          = Except.ok r
      ∧ (r.mimetype
            = "application/vnd.openxmlformats-officedocument.wordprocessingml.document"
          ↔ docxAvailable = true)
      ∧ ((∃ ops, r.content = Sum.inl ops) ↔ docxAvailable = true)
      ∧ (docxAvailable = false →
          r.content = Sum.inr (docxFallbackText form_data ai_struct)
            ∧ r.mimetype = "text/plain"
            ∧ r.download_name = form_data.getD "name" "resume" ++ ".txt"
            ∧ docxFallbackText form_data ai_struct
                = form_data.get "name" ++ "\n" ++ form_data.get "title" ++ "\n\n"
                  ++ ai_struct.summary ++ "\n\nSkills: " ++ ai_struct.skills_line ++ "\n")
      ∧ (docxAvailable = true →
          r.download_name = form_data.getD "name" "resume" ++ ".docx") := by
  cases docxAvailable with
  | false =>
    refine ⟨_, rfl, ?_, ?_, fun _ => ⟨rfl, rfl, rfl, rfl⟩, fun h => absurd h (by decide)⟩
    · exact iff_of_false (fun h => text_ne_docx_mime h) (by decide)
    · exact iff_of_false (fun ⟨_, hh⟩ => Sum.noConfusion hh) (by decide)
  | true =>
    refine ⟨_, rfl, ?_, ?_, fun h => absurd h (by decide), fun _ => rfl⟩
    · exact iff_of_true rfl rfl
    · exact iff_of_true ⟨_, rfl⟩ rfl

/-! ## AI Structurer claims -/

/-- **C9, counterexample to the claim as stated.**  With the AI capability
present, a non-empty API key, a call that succeeds, and a response text
that *is* valid JSON — it parses, to JSON null, exactly as
`json.loads("null")` does — the function still signals absent.  So none of
the claim's listed causes (empty key, capability unavailable, network or
API error, invalid JSON) holds, yet the result is absent: the claimed
"exactly when" is false of the code. -/
theorem ai_structurer_absent_on_null_json :
    call_openai_for_resume (fun _ => some Json.null) true "key" (Except.ok "null") = none
    ∧ ¬ (true = false ∨ "key" = ""
        ∨ (∃ e, (Except.ok "null" : Except String String) = Except.error e)
        ∨ (∃ text, (Except.ok "null" : Except String String) = Except.ok text
            ∧ (fun _ : String => some Json.null) text = none)) := by
  constructor
  · rfl
  · intro h
    rcases h with h | h | ⟨e, he⟩ | ⟨text, htext, hl⟩
    · exact absurd h (by decide)
    · exact absurd h (by decide)
    · exact Except.noConfusion he
    · exact Option.noConfusion hl

/-- **C9 (amended).** The AI Structurer returns `None` exactly when the
OpenAI import failed, the API key is empty, the external call raised
(network or API error), the response text is not valid JSON, **or the
response parses to JSON null** (`json.loads` then yields Python `None`,
indistinguishable from the absent signal); it never retries, and on
success with any other parsed value that value is returned as-is —
whatever its shape — with no validation. -/
theorem ai_structurer_absent_iff_amended (loads : String → Option Json)
    (openaiAvailable : Bool) (api_key : String) (apiResult : Except String String) :
    (call_openai_for_resume loads openaiAvailable api_key apiResult = none
        ↔ openaiAvailable = false ∨ api_key = ""
          ∨ (∃ e, apiResult = Except.error e)
          ∨ (∃ text, apiResult = Except.ok text ∧ loads text = none)
          ∨ (∃ text, apiResult = Except.ok text ∧ loads text = some Json.null))
    ∧ (∀ text parsed, apiResult = Except.ok text → loads text = some parsed →
        parsed ≠ Json.null →
        openaiAvailable = true → api_key ≠ "" →
        call_openai_for_resume loads openaiAvailable api_key apiResult
          = some parsed) := by
  constructor
  · by_cases hA : openaiAvailable = false ∨ api_key = ""
    · simp only [call_openai_for_resume, if_pos hA]
      exact ⟨fun _ => Or.elim hA Or.inl (fun h => Or.inr (Or.inl h)), fun _ => trivial⟩
    · simp only [call_openai_for_resume, if_neg hA]
      push_neg at hA
      cases apiResult with
      | error e =>
        simp [hA.1, hA.2]
      | ok text =>
        cases hl : loads text with
        | none => simp [hA.1, hA.2, hl]
        | some parsed =>
          cases parsed with
          | null => simp [hA.1, hA.2, hl]
          | bool b => simp [hA.1, hA.2, hl]
          | num n => simp [hA.1, hA.2, hl]
          | str s => simp [hA.1, hA.2, hl]
          | arr elems => simp [hA.1, hA.2, hl]
          | obj fs => simp [hA.1, hA.2, hl]
  · intro text parsed hok hl hnull hAv hk
    subst hok
    subst hAv
    cases parsed with
    | null => exact absurd rfl hnull
    | bool b => simp [call_openai_for_resume, hk, hl]
    | num n => simp [call_openai_for_resume, hk, hl]
    | str s => simp [call_openai_for_resume, hk, hl]
    | arr elems => simp [call_openai_for_resume, hk, hl]
    | obj fs => simp [call_openai_for_resume, hk, hl]

lemma pickStruct_not_falsy (ai0 : Option Json) (form : FormData) :
    (pickStruct ai0 form).falsy = false := by
  cases ai0 with
  | none => rfl
  | some j =>
    by_cases hf : j.falsy
    · show (if j.falsy = true then resumeJson (fallback_structure form) else j).falsy
          = false
      rw [if_pos hf]
      rfl
    · show (if j.falsy = true then resumeJson (fallback_structure form) else j).falsy
          = false
      rw [if_neg hf]
      simpa using hf

/-- **C10.** In the index handler, the Local Structurer's output is used
whenever the AI result is absent or falsy (so in particular when the call
parses to `{}` or `[]`), and the value passed on to rendering is never
falsy/absent.  The last conjunct exhibits the `{}` case: an available,
keyed, successful call whose response parses to the empty object still
falls back. -/
theorem index_fallback_on_falsy (loads : String → Option Json)
    (openaiAvailable : Bool) (apikey : String) (apiResult : Except String String)
    (form : FormData) :
    ((call_openai_for_resume loads openaiAvailable apikey apiResult = none
        ∨ (∃ j, call_openai_for_resume loads openaiAvailable apikey apiResult = some j
            ∧ j.falsy = true))
      → index_choose_struct loads openaiAvailable apikey apiResult form
          = resumeJson (fallback_structure form))
    ∧ (index_choose_struct loads openaiAvailable apikey apiResult form).falsy = false
    ∧ index_choose_struct (fun _ => some (Json.obj [])) true "key" (Except.ok "resp") form
        = resumeJson (fallback_structure form) := by
  refine ⟨?_, pickStruct_not_falsy _ form, rfl⟩
  intro hcase
  unfold index_choose_struct
  by_cases hc : apikey ≠ "" ∧ openaiAvailable
  · rw [if_pos hc]
    rcases hcase with hnone | ⟨j, hj, hfalsy⟩
    · rw [hnone]
      rfl
    · rw [hj]
      simp [pickStruct, hfalsy]
  · rw [if_neg hc]
    rfl
